import Mathlib

/-!
Shallow embedding of the authentication and image-upload pipeline of the
`basicNode` repository (`au.js` and `imageuploader/backend.js`), with proofs
of the specification's claims about it.

Modelling conventions:
* JavaScript strings that the code slices or inspects character by character
  (the `authorization` header and the JWT wire format, and the arguments of
  `startsWith`) are modelled as `List Char`; strings that are only stored,
  compared or echoed are Lean `String`s.
* Node `Buffer`s are byte sequences, modelled as `List Nat`.
* JSON values are the inductive `JVal`; a JavaScript object is an
  association list of fields, so dynamic field removal (the
  `{ password: _, ...rest }` spread and the `-image` projection) is a real
  list operation whose result can be queried for absent keys.
* The external `jsonwebtoken` library is modelled with a perfect message
  authentication code: a token's signature is the signed content paired with
  the secret, and verification recomputes and compares it; the wire format is
  a concrete injective encoding of tokens into characters.
* Unix time is a `Nat` of seconds, passed explicitly wherever the code reads
  the clock.
-/

/-- JSON values, used for response bodies and serialized documents. -/
inductive JVal : Type where
  | s (v : String)
  | n (v : Nat)
  | b (v : Bool)
  | bytes (v : List Nat)
  | arr (v : List JVal)
  | obj (fields : List (String × JVal))

/-- Field lookup in a serialized JavaScript object (first occurrence wins,
as in a JS object literal read). -/
def lookupKey (o : List (String × JVal)) (k : String) : Option JVal :=
  match o with
  | [] => none
  | (k₁, v) :: rest => if k₁ = k then some v else lookupKey rest k

/-! ### A concrete injective wire format

The JWT wire format is modelled as a self-delimiting binary code rendered
with the characters `'0'` and `'1'`. Only the existence of a computable
encode/decode pair with `decode (encode x ++ r) = some (x, r)` matters; the
specific code is irrelevant to the claims. -/

/-- Little-endian bits of a natural number (`[]` for `0`). -/
def natToBits (n : Nat) : List Bool :=
  if h : n = 0 then []
  else (n % 2 == 1) :: natToBits (n / 2)
termination_by n
decreasing_by exact Nat.div_lt_self (Nat.pos_of_ne_zero h) (by omega)

/-- Value of a little-endian bit string. -/
def bitsToNat : List Bool → Nat
  | [] => 0
  | b :: bs => (if b then 1 else 0) + 2 * bitsToNat bs

/-- Self-delimiting code for a bit string: each data bit is prefixed with
`true`, and `false` terminates. -/
def delimBits : List Bool → List Bool
  | [] => [false]
  | b :: bs => true :: b :: delimBits bs

/-- Decoder for `delimBits`, returning the decoded string and the rest. -/
def undelimBits : List Bool → Option (List Bool × List Bool)
  | false :: rest => some ([], rest)
  | true :: b :: rest =>
    match undelimBits rest with
    | some (bs, r) => some (b :: bs, r)
    | none => none
  | _ => none

/-- Self-delimiting code of a natural number. -/
def encNat (n : Nat) : List Bool := delimBits (natToBits n)

/-- Decoder for `encNat`. -/
def decNat (bs : List Bool) : Option (Nat × List Bool) :=
  match undelimBits bs with
  | some (l, r) => some (bitsToNat l, r)
  | none => none

/-- Concatenated code of a list of numbers (no framing; the count travels
separately). -/
def encNatsAux : List Nat → List Bool
  | [] => []
  | v :: vs => encNat v ++ encNatsAux vs

/-- Decode exactly `k` numbers. -/
def decNatsCount : Nat → List Bool → Option (List Nat × List Bool)
  | 0, bs => some ([], bs)
  | k + 1, bs =>
    match decNat bs with
    | some (v, r) =>
      match decNatsCount k r with
      | some (vs, r₂) => some (v :: vs, r₂)
      | none => none
    | none => none

/-- Length-prefixed code of a list of numbers. -/
def encNatList (l : List Nat) : List Bool := encNat l.length ++ encNatsAux l

/-- Decoder for `encNatList`. -/
def decNatList (bs : List Bool) : Option (List Nat × List Bool) :=
  match decNat bs with
  | some (k, r) => decNatsCount k r
  | none => none

/-- Code of a string: the length-prefixed list of its character codes. -/
def encStr (s : String) : List Bool := encNatList (s.data.map Char.toNat)

/-- Decoder for `encStr`. -/
def decStr (bs : List Bool) : Option (String × List Bool) :=
  match decNatList bs with
  | some (ns, r) => some (String.mk (ns.map Char.ofNat), r)
  | none => none

/-- Render one bit as a character. -/
def bitChar (b : Bool) : Char := if b then '1' else '0'

/-- Read one bit back from a character. -/
def charBit (c : Char) : Option Bool :=
  if c = '1' then some true else if c = '0' then some false else none

/-- Render a bit string as characters. -/
def charsOfBits (l : List Bool) : List Char := l.map bitChar

/-- Read a bit string back from characters. -/
def bitsOfChars : List Char → Option (List Bool)
  | [] => some []
  | c :: cs =>
    match charBit c, bitsOfChars cs with
    | some b, some bs => some (b :: bs)
    | _, _ => none

/-! ### The credential issuer (`jsonwebtoken` model, `signToken` of `au.js`)

`jsonwebtoken` is an external library; it is modelled with a perfect MAC:
the signature a token carries is the signed content (payload and expiry)
paired with the secret, and `jwt.verify` recomputes that signature from the
token's own payload and the caller's secret and compares, then checks that
the expiry has not elapsed (a token is rejected from its `exp` second on). -/

/-- The claims `signToken` puts in a token: `{ id: ..., email: ... }`. -/
structure JwtPayload where
  id : String
  email : String
deriving DecidableEq, Repr

/-- Model of an HMAC signature: the signed content together with the secret. -/
abbrev JwtSig := JwtPayload × Nat × String

/-- The signature `jwt.sign` computes over a payload and expiry. -/
def macSign (p : JwtPayload) (exp : Nat) (secret : String) : JwtSig :=
  (p, exp, secret)

/-- A decoded JWT: payload claims, expiry timestamp, signature. -/
structure JwtToken where
  payload : JwtPayload
  exp : Nat
  sig : JwtSig
deriving DecidableEq, Repr

/-- Default of `process.env.JWT_EXPIRES || "1d"`: one day of seconds. -/
def jwtExpiresDefault : Nat := 86400

/-- Embedding of `signToken` (`au.js` lines 11–15): `jwt.sign(payload,
JWT_SECRET, { expiresIn })`. `expiresIn` is the configured lifetime in
seconds and `now` the signing time. -/
def signToken (payload : JwtPayload) (secret : String) (expiresIn : Nat)
    (now : Nat) : JwtToken :=
  { payload := payload, exp := now + expiresIn,
    sig := macSign payload (now + expiresIn) secret }

/-- Wire format of a token as a bit string. -/
def encodeTokBits (t : JwtToken) : List Bool :=
  encStr t.payload.id ++ encStr t.payload.email ++ encNat t.exp ++
    encStr t.sig.1.id ++ encStr t.sig.1.email ++ encNat t.sig.2.1 ++
    encStr t.sig.2.2

/-- Decoder for `encodeTokBits` (requires the input to be consumed fully). -/
def decodeTokBits (bs : List Bool) : Option JwtToken := do
  let (pid, r₁) ← decStr bs
  let (pem, r₂) ← decStr r₁
  let (e, r₃) ← decNat r₂
  let (sid, r₄) ← decStr r₃
  let (sem, r₅) ← decStr r₄
  let (se, r₆) ← decNat r₅
  let (sec, r₇) ← decStr r₆
  if r₇ = [] then
    pure { payload := ⟨pid, pem⟩, exp := e, sig := (⟨sid, sem⟩, se, sec) }
  else none

/-- A serialized token: the character string placed in the header. -/
def encodeJwt (t : JwtToken) : List Char := charsOfBits (encodeTokBits t)

/-- Parse a token string back into a token. -/
def decodeJwt (cs : List Char) : Option JwtToken :=
  match bitsOfChars cs with
  | some bs => decodeTokBits bs
  | none => none

/-- Model of `jwt.verify(token, secret)` at clock second `now`: decode the
wire string, recompute and compare the signature, and reject an elapsed
expiry. Failure (the library throws) is `none`. -/
def jwtVerify (token : List Char) (secret : String) (now : Nat) :
    Option JwtPayload :=
  match decodeJwt token with
  | none => none
  | some t =>
    if t.sig = macSign t.payload t.exp secret ∧ now < t.exp then
      some t.payload
    else none

/-! ### HTTP responses -/

/-- Body of an HTTP response: a JSON object, raw bytes (`res.send(buffer)`),
or the HTML page Express's default error handler produces. -/
inductive ResBody where
  | json (fields : List (String × JVal))
  | raw (bytes : List Nat)
  | errorPage (message : String)

/-- An HTTP response: status code, optional `Content-Type` header set by the
handler, body. -/
structure Res where
  status : Nat
  contentType : Option String
  body : ResBody

/-- A JSON response in the `au.js` envelope `{ isError, Message }`. -/
def jsonMsgAu (status : Nat) (isError : Bool) (message : String) : Res :=
  { status := status, contentType := none,
    body := .json [("isError", .b isError), ("Message", .s message)] }

/-! ### The auth gate (`middlewares/auth.js` part of `au.js`) -/

/-- An inbound request as the auth middleware sees it: the value of the
`authorization` header, when present. -/
structure AuthReq where
  authorization : Option (List Char)

/-- The characters of the expected "Bearer " prefix. -/
def bearerChars : List Char := "Bearer ".data

/-- Token extraction (`au.js` line 121): `header.startsWith("Bearer ") ?
header.slice(7) : header`. -/
def extractToken (header : List Char) : List Char :=
  if bearerChars.isPrefixOf header then header.drop 7 else header

/-- Embedding of the auth middleware (`au.js` lines 116–132): read the
`authorization` header (empty string when absent), extract the token, fail
with 401 when it is empty, verify it, fail with 401 when verification
throws, otherwise attach the decoded payload to the request and run the
downstream handler `next`. -/
def auth (req : AuthReq) (secret : String) (now : Nat)
    (next : JwtPayload → Res) : Res :=
  let header := req.authorization.getD []
  let token := extractToken header
  if token.isEmpty then jsonMsgAu 401 true "No token provided"
  else
    match jwtVerify token secret now with
    | some decoded => next decoded
    | none => jsonMsgAu 401 true "Invalid/Expired token"

/-! ### Accounts and the signup/login routes (`routes/auth.js` part of `au.js`) -/

/-- An account document of the `User` model used by `au.js`. -/
structure Account where
  _id : String
  name : String
  email : String
  password : String
deriving DecidableEq, Repr

/-- Modelled from the spec: `models/User.js` is not under `src/`; per the
spec the account is stored with a one-way-hashed password. The hash is
modelled as an injective tagging function. -/
def hashPassword (p : String) : String := String.mk ('#' :: p.data)

/-- Modelled from the spec: `models/User.js` is not under `src/`; its
`matchPassword` compares the stored hash with the hash of the candidate. -/
def matchPassword (u : Account) (candidate : String) : Bool :=
  u.password = hashPassword candidate

/-- Mongoose `User.findOne({ email })`: first document with that email. -/
def findOneByEmail (db : List Account) (email : String) : Option Account :=
  db.find? (fun u => u.email = email)

/-- Mongoose `user.toObject()`: the document as a plain object, stored
password hash included. -/
def toObject (u : Account) : List (String × JVal) :=
  [("_id", .s u._id), ("name", .s u.name), ("email", .s u.email),
   ("password", .s u.password)]

/-- The `const { password: _, ...userSafe } = user.toObject()` spread:
every field except `password`. -/
def omitPassword (o : List (String × JVal)) : List (String × JVal) :=
  o.filter (fun kv => kv.1 ≠ "password")

/-- Model of JavaScript `String.prototype.trim` (and of the
`express-validator` `.trim()` sanitizer): strip leading and trailing
whitespace. -/
def jsWhitespaceChar (c : Char) : Bool :=
  c = ' ' || c = '\t' || c = '\n' || c = '\r'

/-- Trim a string at both ends. -/
def jsTrim (s : String) : String :=
  String.mk (((s.data.dropWhile jsWhitespaceChar).reverse.dropWhile
    jsWhitespaceChar).reverse)

/-- Simplified model of validator.js `isEmail` (external library): the
claims only gate on it, never on its internals. -/
def isEmailModel (s : String) : Bool := s.data.contains '@'

/-- The `/signup` validation chain: `name` nonempty after trimming, `email`
an email, `password` at least 6 characters. -/
def signupValid (name email password : String) : Bool :=
  (jsTrim name ≠ "") && isEmailModel email && decide (password.length ≥ 6)

/-- The 400 response `{ isError: true, errors: [...] }` produced from a
failed validation chain (the contents of the `errors` array are not
modelled; no claim mentions them). -/
def validationFailRes : Res :=
  { status := 400, contentType := none,
    body := .json [("isError", .b true), ("errors", .arr [])] }

/-- Embedding of `POST /signup` (`au.js` lines 18–56): validate, reject a
duplicate email with 409, store the account with the hashed password, sign
a token for `{ id, email }`, and answer 201 with the token and the account
view with `password` stripped. `freshId` is the `_id` Mongo generates and
`now` the clock. Returns the updated store and the response. -/
def signup (db : List Account) (name email password : String)
    (freshId secret : String) (expiresIn now : Nat) : List Account × Res :=
  if ¬ signupValid name email password then (db, validationFailRes)
  else
    match findOneByEmail db email with
    | some _ => (db, jsonMsgAu 409 true "Email already in use")
    | none =>
      let u : Account := { _id := freshId, name := jsTrim name, email := email,
                           password := hashPassword password }
      let token := encodeJwt (signToken ⟨u._id, u.email⟩ secret expiresIn now)
      (db ++ [u],
        { status := 201, contentType := none,
          body := .json [("isError", .b false), ("Message", .s "User created"),
            ("token", .s (String.mk token)),
            ("user", .obj (omitPassword (toObject u)))] })

/-- The `/login` validation chain: `email` an email, `password` nonempty. -/
def loginValid (email password : String) : Bool :=
  isEmailModel email && (password ≠ "")

/-- Embedding of `POST /login` (`au.js` lines 59–99): validate, look the
account up by email, answer 401 `"Invalid credentials"` when it is absent,
answer the same 401 when the password does not match, otherwise answer 200
with a fresh token and the stripped account view. The store is unchanged. -/
def login (db : List Account) (email password : String)
    (secret : String) (expiresIn now : Nat) : Res :=
  if ¬ loginValid email password then validationFailRes
  else
    match findOneByEmail db email with
    | none => jsonMsgAu 401 true "Invalid credentials"
    | some u =>
      if matchPassword u password then
        { status := 200, contentType := none,
          body := .json [("isError", .b false), ("Message", .s "Login success"),
            ("token", .s (String.mk (encodeJwt
              (signToken ⟨u._id, u.email⟩ secret expiresIn now)))),
            ("user", .obj (omitPassword (toObject u)))] }
      else jsonMsgAu 401 true "Invalid credentials"

/-! ### The image-upload router (`imageuploader/backend.js`) -/

/-- A profile document of the `User` schema of `imageuploader/backend.js`:
name, mobile, address, an optional embedded image (`data` buffer and
`contentType` each optional in the schema), and the `timestamps: true`
creation time. -/
structure Profile where
  _id : String
  name : String
  mobile : String
  address : String
  imageData : Option (List Nat)
  imageContentType : Option String
  createdAt : Nat
deriving DecidableEq, Repr

/-- Hexadecimal digit test for ObjectId validation. -/
def isHexDigitChar (c : Char) : Bool :=
  c.isDigit || ('a' ≤ c && c ≤ 'f') || ('A' ≤ c && c ≤ 'F')

/-- Model of `mongoose.Types.ObjectId.isValid` on a string: a 24-character
hexadecimal string, or any 12-character string (12 bytes). -/
def isValidObjectId (s : String) : Bool :=
  (s.length = 24 && s.data.all isHexDigitChar) || s.length = 12

/-- A cast failure raised by mongoose when a query id cannot be cast to an
ObjectId; it rejects the query's promise and lands in the handler's
`catch`. -/
inductive DbErr where
  | castError
deriving DecidableEq, Repr

/-- Mongoose `User.findById(id)`: cast the id (throwing `CastError` on a
malformed one), then return the first document with that `_id`. -/
def findById (db : List Profile) (id : String) : Except DbErr (Option Profile) :=
  if isValidObjectId id then .ok (db.find? (fun p => p._id = id))
  else .error .castError

/-- Model of JavaScript `String.prototype.startsWith` over character
lists. -/
def jsStartsWith (s pre : String) : Bool := pre.data.isPrefixOf s.data

/-- The uploaded file as multer's memory storage delivers it: the declared
MIME type and the buffered bytes. -/
structure RawFile where
  mimetype : String
  buffer : List Nat
deriving DecidableEq, Repr

/-- The configured limit (`backend.js` line 39): `5 * 1024 * 1024`. -/
def fileSizeLimit : Nat := 5 * 1024 * 1024

/-- Outcome of the multer middleware: either a processed request (with the
file when one was supplied) or an error passed to `next(err)`. -/
inductive MulterResult where
  | ok (file : Option RawFile)
  | err (message : String)

/-- Model of the `upload.single('image')` middleware configured at
`backend.js` lines 35–48: no file passes through; a file whose declared
MIME type fails the `fileFilter` (`mimetype.startsWith('image/')`) is
rejected with the filter's error; a file whose buffered size exceeds
`fileSizeLimit` is rejected with multer's `LIMIT_FILE_SIZE` error. The
filter sees the metadata before the body is buffered, so it fires first. -/
def multerSingleImage (file : Option RawFile) : MulterResult :=
  match file with
  | none => .ok none
  | some f =>
    if jsStartsWith f.mimetype "image/" then
      if f.buffer.length > fileSizeLimit then .err "File too large"
      else .ok (some f)
    else .err "Only image files are allowed!"

/-- Model of Express's default error handler. The router registers no
error-handling middleware, and neither multer's `MulterError` nor the
`fileFilter`'s plain `Error` carries a `status`/`statusCode` field, so an
error passed to `next(err)` falls through to Express's final handler, which
responds with HTTP 500 and an error page. -/
def expressDefaultErrorRes (message : String) : Res :=
  { status := 500, contentType := none, body := .errorPage message }

/-- A JSON response in the `backend.js` envelope `{ success, message }`. -/
def jsonUp (status : Nat) (success : Bool) (message : String) : Res :=
  { status := status, contentType := none,
    body := .json [("success", .b success), ("message", .s message)] }

/-- The multipart text fields of an upload request; a missing field is
`none`. -/
structure UploadBody where
  name : Option String
  mobile : Option String
  address : Option String
deriving DecidableEq, Repr

/-- JavaScript falsiness of `req.body.x` for a text field: absent or the
empty string. -/
def jsFalsyStr (v : Option String) : Bool :=
  match v with
  | none => true
  | some s => s = ""

/-- Embedding of `POST /api/users` (`backend.js` lines 51–103) including the
multer stage: a multer error short-circuits to Express's default handler;
then a falsy `name`/`mobile`/`address` is a 400 and a missing file is a 400;
then `newUser.save()` runs the schema's validation (`backend.js` lines 8–30:
`trim: true` and `required: true` on the three text fields), so a field that
is whitespace-only trims to the empty string, fails `required`, and the
rejected save lands in the route's `catch`, which answers 500 with nothing
persisted; otherwise the one new trimmed document is saved and echoed in a
201. `freshId` is the generated `_id`, `now` the clock. Returns the updated
store and the response. -/
def postUsers (db : List Profile) (body : UploadBody) (file : Option RawFile)
    (freshId : String) (now : Nat) : List Profile × Res :=
  match multerSingleImage file with
  | .err m => (db, expressDefaultErrorRes m)
  | .ok f? =>
    if jsFalsyStr body.name || jsFalsyStr body.mobile || jsFalsyStr body.address then
      (db, jsonUp 400 false "Name, mobile, and address are required")
    else
      match f? with
      | none => (db, jsonUp 400 false "Image is required")
      | some f =>
        let p : Profile :=
          { _id := freshId,
            name := jsTrim (body.name.getD ""),
            mobile := jsTrim (body.mobile.getD ""),
            address := jsTrim (body.address.getD ""),
            imageData := some f.buffer,
            imageContentType := some f.mimetype,
            createdAt := now }
        if p.name = "" || p.mobile = "" || p.address = "" then
          (db, jsonUp 500 false "Internal server error")
        else
          (db ++ [p],
            { status := 201, contentType := none,
              body := .json [("success", .b true),
                ("message", .s "User created successfully"),
                ("data", .obj [("id", .s p._id), ("name", .s p.name),
                  ("mobile", .s p.mobile), ("address", .s p.address),
                  ("createdAt", .n p.createdAt)])] })

/-- Serialization of the embedded image subdocument. -/
def imageJson (p : Profile) : List (String × JVal) :=
  (match p.imageData with
   | some d => [("data", .bytes d)]
   | none => []) ++
  (match p.imageContentType with
   | some c => [("contentType", .s c)]
   | none => [])

/-- Serialization of a profile document (the mongoose-internal `__v` and
`updatedAt` bookkeeping fields are not modelled; no claim mentions them). -/
def docJson (p : Profile) : List (String × JVal) :=
  [("_id", .s p._id), ("name", .s p.name), ("mobile", .s p.mobile),
   ("address", .s p.address), ("image", .obj (imageJson p)),
   ("createdAt", .n p.createdAt)]

/-- The `-image` projection: every field except `image`. -/
def omitImage (o : List (String × JVal)) : List (String × JVal) :=
  o.filter (fun kv => kv.1 ≠ "image")

/-- The sort key of `.sort({ createdAt: -1 })`: descending creation time. -/
def createdDesc (a b : Profile) : Prop := b.createdAt ≤ a.createdAt

instance : DecidableRel createdDesc := fun a b =>
  Nat.decLe b.createdAt a.createdAt

instance : IsTotal Profile createdDesc :=
  ⟨fun a b => Nat.le_total b.createdAt a.createdAt⟩

instance : IsTrans Profile createdDesc :=
  ⟨fun _ _ _ hab hbc => Nat.le_trans hbc hab⟩

/-- Embedding of `GET /api/users` (`backend.js` lines 106–122):
`User.find({}, '-image').sort({ createdAt: -1 })`, all documents without
their image payload, in descending creation order. -/
def getUsers (db : List Profile) : Res :=
  { status := 200, contentType := none,
    body := .json [("success", .b true),
      ("data", .arr ((List.insertionSort createdDesc db).map
        (fun p => .obj (omitImage (docJson p)))))] }

/-- Embedding of `GET /api/users/:id` (`backend.js` lines 125–148):
`findById` with the `-image` projection and no id validation; a mongoose
`CastError` lands in the `catch` and yields a 500. -/
def getUserById (db : List Profile) (id : String) : Res :=
  match findById db id with
  | .error _ => jsonUp 500 false "Internal server error"
  | .ok none => jsonUp 404 false "User not found"
  | .ok (some u) =>
    { status := 200, contentType := none,
      body := .json [("success", .b true),
        ("data", .obj (omitImage (docJson u)))] }

/-- Embedding of `GET /api/users/:id/image` (`backend.js` lines 151–180):
validate the id shape first (400 on a malformed id), then `findById`; a
missing document or missing image bytes is a 404, and otherwise the raw
bytes are sent with the stored content type. -/
def getUserImage (db : List Profile) (id : String) : Res :=
  if ¬ isValidObjectId id then jsonUp 400 false "Invalid user ID format"
  else
    match findById db id with
    | .error _ => jsonUp 500 false "Internal server error"
    | .ok none => jsonUp 404 false "Image not found"
    | .ok (some u) =>
      match u.imageData with
      | none => jsonUp 404 false "Image not found"
      | some d =>
        { status := 200, contentType := u.imageContentType, body := .raw d }

/-! ## Theorems -/

/-- Removing a key by filtering really removes it. -/
theorem lookupKey_filter_self (o : List (String × JVal)) (k : String) :
    lookupKey (o.filter (fun kv => kv.1 ≠ k)) k = none := by
  induction o with
  | nil => rfl
  | cons kv rest ih =>
    by_cases h : kv.1 = k
    · simpa [List.filter, h] using ih
    · simpa [List.filter, h, lookupKey] using ih

theorem bitsToNat_natToBits (n : Nat) : bitsToNat (natToBits n) = n := by
  induction n using Nat.strong_induction_on with
  | _ n ih =>
    by_cases h : n = 0
    · subst h; simp [natToBits, bitsToNat]
    · rw [natToBits, dif_neg h]
      have hrec := ih (n / 2) (Nat.div_lt_self (Nat.pos_of_ne_zero h) (by omega))
      rcases Nat.mod_two_eq_zero_or_one n with h2 | h2 <;>
        simp [bitsToNat, h2, hrec] <;> omega

theorem delimBits_ne_nil (l : List Bool) : delimBits l ≠ [] := by
  cases l <;> simp [delimBits]

theorem undelimBits_delimBits (l r : List Bool) :
    undelimBits (delimBits l ++ r) = some (l, r) := by
  induction l with
  | nil => rfl
  | cons b bs ih => simp [delimBits, undelimBits, ih]

theorem encNat_ne_nil (n : Nat) : encNat n ≠ [] := delimBits_ne_nil _

theorem decNat_encNat (n : Nat) (r : List Bool) :
    decNat (encNat n ++ r) = some (n, r) := by
  simp [decNat, encNat, undelimBits_delimBits, bitsToNat_natToBits]

theorem decNatsCount_encNatsAux (l : List Nat) (r : List Bool) :
    decNatsCount l.length (encNatsAux l ++ r) = some (l, r) := by
  induction l generalizing r with
  | nil => rfl
  | cons v vs ih =>
    simp [encNatsAux, decNatsCount, List.append_assoc, decNat_encNat, ih]

theorem encNatList_ne_nil (l : List Nat) : encNatList l ≠ [] := by
  have := encNat_ne_nil l.length
  simp [encNatList]
  intro h
  exact absurd h this

theorem decNatList_encNatList (l : List Nat) (r : List Bool) :
    decNatList (encNatList l ++ r) = some (l, r) := by
  simp [decNatList, encNatList, List.append_assoc, decNat_encNat,
    decNatsCount_encNatsAux]

theorem encStr_ne_nil (s : String) : encStr s ≠ [] := encNatList_ne_nil _

theorem decStr_encStr (s : String) (r : List Bool) :
    decStr (encStr s ++ r) = some (s, r) := by
  have hmap : (s.data.map Char.toNat).map Char.ofNat = s.data := by
    induction s.data with
    | nil => rfl
    | cons c cs ih => simp [ih]
  simp [decStr, encStr, decNatList_encNatList, hmap]

theorem decStr_encStr_nil (s : String) : decStr (encStr s) = some (s, []) := by
  simpa using decStr_encStr s []

theorem bitsOfChars_charsOfBits (l : List Bool) :
    bitsOfChars (charsOfBits l) = some l := by
  induction l with
  | nil => rfl
  | cons b bs ih =>
    have hc : charBit (bitChar b) = some b := by cases b <;> rfl
    simp only [charsOfBits, List.map] at ih ⊢
    simp [bitsOfChars, hc, ih]

theorem encodeTokBits_ne_nil (t : JwtToken) : encodeTokBits t ≠ [] := by
  have := encStr_ne_nil t.payload.id
  simp [encodeTokBits]
  intro h
  exact absurd h this

theorem encodeJwt_ne_nil (t : JwtToken) : encodeJwt t ≠ [] := by
  have := encodeTokBits_ne_nil t
  simp [encodeJwt, charsOfBits]
  intro h
  exact absurd h this

theorem decodeTokBits_encodeTokBits (t : JwtToken) :
    decodeTokBits (encodeTokBits t) = some t := by
  rw [encodeTokBits]
  simp [decodeTokBits, List.append_assoc, decStr_encStr, decNat_encNat,
    decStr_encStr_nil]

theorem decodeJwt_encodeJwt (t : JwtToken) : decodeJwt (encodeJwt t) = some t := by
  simp [decodeJwt, encodeJwt, bitsOfChars_charsOfBits, decodeTokBits_encodeTokBits]

theorem jwtVerify_signToken (p : JwtPayload) (secret : String)
    (expiresIn now now' : Nat) (h : now' < now + expiresIn) :
    jwtVerify (encodeJwt (signToken p secret expiresIn now)) secret now' = some p := by
  simp [jwtVerify, decodeJwt_encodeJwt, signToken, macSign, h]

theorem isPrefixOf_append_self (l r : List Char) : l.isPrefixOf (l ++ r) = true := by
  simp

/-- C1: a token produced by the credential issuer (`signToken` with the
configured secret) and passed before its expiry to the auth gate's
verification with the same secret yields exactly the original subject id
and email — the gate hands the downstream handler precisely `{ id, email }`. -/
theorem signToken_auth_roundtrip (id email secret : String)
    (expiresIn now now' : Nat) (next : JwtPayload → Res)
    (h : now' < now + expiresIn) :
    auth ⟨some (bearerChars ++
        encodeJwt (signToken ⟨id, email⟩ secret expiresIn now))⟩
      secret now' next = next ⟨id, email⟩ := by
  have hdrop : (bearerChars ++
      encodeJwt (signToken ⟨id, email⟩ secret expiresIn now)).drop 7 =
      encodeJwt (signToken ⟨id, email⟩ secret expiresIn now) :=
    List.drop_left' (by rfl)
  have hne : encodeJwt (signToken ⟨id, email⟩ secret expiresIn now) ≠ [] :=
    encodeJwt_ne_nil _
  simp only [auth, extractToken, Option.getD_some, isPrefixOf_append_self,
    if_true, hdrop]
  rw [if_neg (by simpa [List.isEmpty_iff] using hne)]
  rw [jwtVerify_signToken _ _ _ _ _ h]

/-- Witness for C1 at a concrete subject, secret and clock. -/
theorem signToken_auth_roundtrip_witness :
    (3 : Nat) < 0 + 86400 ∧
    auth ⟨some (bearerChars ++
        encodeJwt (signToken ⟨"u1", "a@b.c"⟩ "s3cret" 86400 0))⟩
      "s3cret" 3 (fun p => jsonMsgAu 200 false p.email) =
      (fun p : JwtPayload => jsonMsgAu 200 false p.email) ⟨"u1", "a@b.c"⟩ :=
  ⟨by decide,
   signToken_auth_roundtrip "u1" "a@b.c" "s3cret" 86400 0 3 _ (by decide)⟩

/-- C2: the auth gate strips a "Bearer " prefix when present and uses the
raw header otherwise; an empty extracted token yields 401 "No token
provided"; a token whose verification fails (malformed, wrong signature, or
elapsed expiry — in particular any wire-encoded token whose expiry has
elapsed) yields 401 "Invalid/Expired token"; and in either failure case the
result is the same for every downstream handler, so no protected handler
runs. -/
theorem auth_gate_failure_spec (req : AuthReq) (secret : String) (now : Nat)
    (next next' : JwtPayload → Res) :
    (∀ w, extractToken (bearerChars ++ w) = w) ∧
    (∀ hd, bearerChars.isPrefixOf hd = false → extractToken hd = hd) ∧
    (extractToken (req.authorization.getD []) = [] →
      auth req secret now next = jsonMsgAu 401 true "No token provided") ∧
    (extractToken (req.authorization.getD []) ≠ [] →
      jwtVerify (extractToken (req.authorization.getD [])) secret now = none →
      auth req secret now next = jsonMsgAu 401 true "Invalid/Expired token") ∧
    (∀ t : JwtToken, t.exp ≤ now → jwtVerify (encodeJwt t) secret now = none) ∧
    ((extractToken (req.authorization.getD []) = [] ∨
        jwtVerify (extractToken (req.authorization.getD [])) secret now = none) →
      auth req secret now next = auth req secret now next') := by
  refine ⟨?_, ?_, ?_, ?_, ?_, ?_⟩
  · intro w
    simp only [extractToken, isPrefixOf_append_self, if_true]
    exact List.drop_left' (by rfl)
  · intro hd hpre
    simp [extractToken, hpre]
  · intro htok
    simp [auth, htok]
  · intro htok hver
    simp only [auth]
    rw [if_neg (by simpa [List.isEmpty_iff] using htok), hver]
  · intro t hexp
    simp [jwtVerify, decodeJwt_encodeJwt]
    intro _
    omega
  · rintro (htok | hver)
    · simp [auth, htok]
    · by_cases htok : extractToken (req.authorization.getD []) = []
      · simp [auth, htok]
      · have h1 : auth req secret now next =
            jsonMsgAu 401 true "Invalid/Expired token" := by
          simp only [auth]
          rw [if_neg (by simpa [List.isEmpty_iff] using htok), hver]
        have h2 : auth req secret now next' =
            jsonMsgAu 401 true "Invalid/Expired token" := by
          simp only [auth]
          rw [if_neg (by simpa [List.isEmpty_iff] using htok), hver]
        rw [h1, h2]

/-- Witness for C2: a missing header, a malformed token, and an expired
but correctly signed token, each at concrete inputs. -/
theorem auth_gate_failure_spec_witness :
    auth ⟨none⟩ "s" 0 (fun p => jsonMsgAu 200 false p.email) =
      jsonMsgAu 401 true "No token provided" ∧
    auth ⟨some ['x']⟩ "s" 0 (fun p => jsonMsgAu 200 false p.email) =
      jsonMsgAu 401 true "Invalid/Expired token" ∧
    jwtVerify (encodeJwt (signToken ⟨"u", "e@x"⟩ "s" 5 0)) "s" 10 = none :=
  ⟨(auth_gate_failure_spec ⟨none⟩ "s" 0 (fun p => jsonMsgAu 200 false p.email)
      (fun p => jsonMsgAu 200 false p.email)).2.2.1 (by decide),
   (auth_gate_failure_spec ⟨some ['x']⟩ "s" 0
      (fun p => jsonMsgAu 200 false p.email)
      (fun p => jsonMsgAu 200 false p.email)).2.2.2.1 (by decide) (by decide),
   (auth_gate_failure_spec ⟨none⟩ "s" 10 (fun p => jsonMsgAu 200 false p.email)
      (fun p => jsonMsgAu 200 false p.email)).2.2.2.2.1
     (signToken ⟨"u", "e@x"⟩ "s" 5 0) (by decide)⟩

/-- C5: for a well-formed login request, the response when the email is not
registered and the response when the account exists but the password does
not match are the very same 401 "Invalid credentials" response — no
account-existence oracle. -/
theorem login_uniform_invalid_credentials (db : List Account)
    (email password : String) (secret : String) (expiresIn now : Nat)
    (hv : loginValid email password = true) :
    (findOneByEmail db email = none →
      login db email password secret expiresIn now =
        jsonMsgAu 401 true "Invalid credentials") ∧
    (∀ u, findOneByEmail db email = some u → matchPassword u password = false →
      login db email password secret expiresIn now =
        jsonMsgAu 401 true "Invalid credentials") := by
  constructor
  · intro hnone
    simp [login, hv, hnone]
  · intro u hu hpw
    simp [login, hv, hu, hpw]

/-- Witness for C5: an unknown email and a known email with a wrong
password produce the same concrete 401 response. -/
theorem login_uniform_invalid_credentials_witness :
    login [⟨"1", "A", "a@b.c", hashPassword "pw12345"⟩] "z@b.c" "pw12345"
        "s" 86400 0 = jsonMsgAu 401 true "Invalid credentials" ∧
    login [⟨"1", "A", "a@b.c", hashPassword "pw12345"⟩] "a@b.c" "wrongpw"
        "s" 86400 0 = jsonMsgAu 401 true "Invalid credentials" :=
  ⟨(login_uniform_invalid_credentials [⟨"1", "A", "a@b.c", hashPassword "pw12345"⟩]
      "z@b.c" "pw12345" "s" 86400 0 (by decide)).1 (by decide),
   (login_uniform_invalid_credentials [⟨"1", "A", "a@b.c", hashPassword "pw12345"⟩]
      "a@b.c" "wrongpw" "s" 86400 0 (by decide)).2
     ⟨"1", "A", "a@b.c", hashPassword "pw12345"⟩ (by decide) (by decide)⟩

/-- C6: for a valid signup (nonempty trimmed name, well-formed email not
already registered, password of length at least 6) the request succeeds
with 201, the stored account is appended, the `user` field of the response
is the account object with the password credential stripped, and that view
has no `password` field. -/
theorem signup_strips_password (db : List Account)
    (name email password freshId secret : String) (expiresIn now : Nat)
    (hname : jsTrim name ≠ "")
    (hemail : isEmailModel email = true)
    (hpw : password.length ≥ 6)
    (hfree : findOneByEmail db email = none) :
    signup db name email password freshId secret expiresIn now =
      (db ++ [⟨freshId, jsTrim name, email, hashPassword password⟩],
        { status := 201, contentType := none,
          body := .json [("isError", .b false), ("Message", .s "User created"),
            ("token", .s (String.mk (encodeJwt
              (signToken ⟨freshId, email⟩ secret expiresIn now)))),
            ("user", .obj (omitPassword
              (toObject ⟨freshId, jsTrim name, email, hashPassword password⟩)))] }) ∧
    lookupKey (omitPassword
      (toObject ⟨freshId, jsTrim name, email, hashPassword password⟩))
      "password" = none := by
  constructor
  · simp [signup, signupValid, hname, hemail, hpw, hfree]
  · exact lookupKey_filter_self _ _

/-- Witness for C6 at a concrete signup. -/
theorem signup_strips_password_witness :
    jsTrim "Ann" ≠ "" ∧
    lookupKey (omitPassword (toObject ⟨"id1", jsTrim "Ann", "a@b.c",
      hashPassword "pw12345"⟩)) "password" = none :=
  ⟨by decide,
   (signup_strips_password [] "Ann" "a@b.c" "pw12345" "id1" "s" 86400 0
     (by decide) (by decide) (by decide) (by decide)).2⟩

/-- C3 (counterexample): the claim that an oversize file is rejected with
413 and a non-image MIME type with 415 is false on the code. A 6 MiB PNG
upload and a `text/plain` upload both produce status 500 — the router
installs no multer error middleware, so both errors reach Express's
default handler. -/
theorem postUsers_multer_err (db : List Profile) (body : UploadBody)
    (file : Option RawFile) (freshId : String) (now : Nat) (m : String)
    (h : multerSingleImage file = .err m) :
    postUsers db body file freshId now = (db, expressDefaultErrorRes m) := by
  simp [postUsers, h]

theorem multerSingleImage_oversize (f : RawFile)
    (hm : jsStartsWith f.mimetype "image/" = true)
    (hs : f.buffer.length > fileSizeLimit) :
    multerSingleImage (some f) = .err "File too large" := by
  simp only [multerSingleImage]
  rw [if_pos hm, if_pos hs]

theorem multerSingleImage_badtype (f : RawFile)
    (hm : jsStartsWith f.mimetype "image/" = false) :
    multerSingleImage (some f) = .err "Only image files are allowed!" := by
  simp only [multerSingleImage]
  rw [if_neg (by simp [hm])]

theorem upload_status_counterexample :
    (postUsers [] ⟨some "Ann", some "1234567890", some "1 Main St"⟩
      (some ⟨"image/png", List.replicate (6 * 1024 * 1024) 0⟩)
      "0123456789abcdef01234567" 0).2.status = 500 ∧
    (500 : Nat) ≠ 413 ∧
    (postUsers [] ⟨some "Ann", some "1234567890", some "1 Main St"⟩
      (some ⟨"text/plain", [137]⟩) "0123456789abcdef01234567" 0).2.status = 500 ∧
    (500 : Nat) ≠ 415 := by
  refine ⟨?_, by decide, ?_, by decide⟩
  · rw [postUsers_multer_err _ _ _ _ _ "File too large"
      (multerSingleImage_oversize _ (by decide)
        (by rw [List.length_replicate]; decide))]
    rfl
  · rw [postUsers_multer_err _ _ _ _ _ "Only image files are allowed!"
      (multerSingleImage_badtype _ (by decide))]
    rfl

/-- C3 (amended): a file larger than 5 MiB, and a file whose declared MIME
type does not begin with "image/", are both rejected before the handler
runs — the store is unchanged — but with status 500 from Express's default
error handler, not 413 or 415. -/
theorem upload_rejected_with_500 (db : List Profile) (body : UploadBody)
    (f : RawFile) (freshId : String) (now : Nat) :
    (jsStartsWith f.mimetype "image/" = true →
      f.buffer.length > fileSizeLimit →
      postUsers db body (some f) freshId now =
        (db, expressDefaultErrorRes "File too large")) ∧
    (jsStartsWith f.mimetype "image/" = false →
      postUsers db body (some f) freshId now =
        (db, expressDefaultErrorRes "Only image files are allowed!")) ∧
    (expressDefaultErrorRes "File too large").status = 500 ∧
    (expressDefaultErrorRes "Only image files are allowed!").status = 500 := by
  refine ⟨?_, ?_, rfl, rfl⟩
  · intro hm hs
    exact postUsers_multer_err _ _ _ _ _ _ (multerSingleImage_oversize f hm hs)
  · intro hm
    exact postUsers_multer_err _ _ _ _ _ _ (multerSingleImage_badtype f hm)

/-- Witness for the amended C3 at concrete uploads. -/
theorem upload_rejected_with_500_witness :
    (List.replicate (6 * 1024 * 1024) (0 : Nat)).length > fileSizeLimit ∧
    postUsers [] ⟨some "Ann", some "1234567890", some "1 Main St"⟩
      (some ⟨"image/png", List.replicate (6 * 1024 * 1024) 0⟩) "a" 0 =
      ([], expressDefaultErrorRes "File too large") ∧
    postUsers [] ⟨some "Ann", some "1234567890", some "1 Main St"⟩
      (some ⟨"text/plain", [137]⟩) "a" 0 =
      ([], expressDefaultErrorRes "Only image files are allowed!") :=
  ⟨by rw [List.length_replicate]; decide,
   (upload_rejected_with_500 [] ⟨some "Ann", some "1234567890", some "1 Main St"⟩
      ⟨"image/png", List.replicate (6 * 1024 * 1024) 0⟩ "a" 0).1 (by decide)
     (by rw [List.length_replicate]; decide),
   (upload_rejected_with_500 [] ⟨some "Ann", some "1234567890", some "1 Main St"⟩
      ⟨"text/plain", [137]⟩ "a" 0).2.1 (by decide)⟩

/-- C4: whenever the ingest route answers anything other than 201 — multer
rejection, missing text field, or missing file — the store is exactly what
it was: the rejection happens before any write. -/
theorem upload_reject_no_write (db : List Profile) (body : UploadBody)
    (file : Option RawFile) (freshId : String) (now : Nat)
    (h : (postUsers db body file freshId now).2.status ≠ 201) :
    (postUsers db body file freshId now).1 = db := by
  rcases hmul : multerSingleImage file with f? | m
  · by_cases hfal : (jsFalsyStr body.name || jsFalsyStr body.mobile ||
        jsFalsyStr body.address) = true
    · simp [postUsers, hmul, hfal]
    · rcases f? with _ | f
      · simp [postUsers, hmul, hfal]
      · by_cases hreq : (jsTrim (body.name.getD "") = "" ||
            jsTrim (body.mobile.getD "") = "" ||
            jsTrim (body.address.getD "") = "") = true
        · simp [postUsers, hmul, hfal, hreq]
        · exfalso
          apply h
          simp [postUsers, hmul, hfal, hreq]
  · simp [postUsers, hmul]

/-- Witness for C4 at a concrete rejected request (missing fields and
file). -/
theorem upload_reject_no_write_witness :
    (postUsers [] ⟨none, none, none⟩ none "a" 0).2.status ≠ 201 ∧
    (postUsers [] ⟨none, none, none⟩ none "a" 0).1 = [] :=
  ⟨by decide, upload_reject_no_write [] ⟨none, none, none⟩ none "a" 0 (by decide)⟩

/-- C7: a successful ingest (all three text fields nonempty after the
schema's trimming, so the save's `required` validation passes, and an
accepted image file) answers 201, and a subsequent image fetch by the new
id emits exactly the uploaded bytes with the declared MIME type as the
`Content-Type` header — a byte-level round-trip with no transcoding. -/
theorem ingest_then_serve_roundtrip (db : List Profile)
    (name mobile address : String) (f : RawFile) (freshId : String) (now : Nat)
    (hn : jsTrim name ≠ "") (hmo : jsTrim mobile ≠ "") (ha : jsTrim address ≠ "")
    (hmime : jsStartsWith f.mimetype "image/" = true)
    (hsize : f.buffer.length ≤ fileSizeLimit)
    (hid : isValidObjectId freshId = true)
    (hfresh : ∀ q ∈ db, q._id ≠ freshId) :
    (postUsers db ⟨some name, some mobile, some address⟩ (some f)
      freshId now).2.status = 201 ∧
    getUserImage
      (postUsers db ⟨some name, some mobile, some address⟩ (some f)
        freshId now).1 freshId =
      { status := 200, contentType := some f.mimetype, body := .raw f.buffer } := by
  have hnot : ¬ f.buffer.length > fileSizeLimit := by omega
  have hn0 : name ≠ "" := by
    intro h
    exact hn (by rw [h]; decide)
  have hmo0 : mobile ≠ "" := by
    intro h
    exact hmo (by rw [h]; decide)
  have ha0 : address ≠ "" := by
    intro h
    exact ha (by rw [h]; decide)
  have hmul : multerSingleImage (some f) = .ok (some f) := by
    simp only [multerSingleImage]
    rw [if_pos hmime, if_neg hnot]
  have hpost : postUsers db ⟨some name, some mobile, some address⟩ (some f)
      freshId now =
      (db ++
        [({ _id := freshId,
            name := jsTrim name,
            mobile := jsTrim mobile,
            address := jsTrim address,
            imageData := some f.buffer,
            imageContentType := some f.mimetype,
            createdAt := now } : Profile)],
        { status := 201, contentType := none,
          body := .json [("success", .b true),
            ("message", .s "User created successfully"),
            ("data", .obj [("id", .s freshId), ("name", .s (jsTrim name)),
              ("mobile", .s (jsTrim mobile)), ("address", .s (jsTrim address)),
              ("createdAt", .n now)])] }) := by
    simp [postUsers, hmul, jsFalsyStr, hn0, hmo0, ha0, hn, hmo, ha]
  refine ⟨by rw [hpost], ?_⟩
  rw [hpost]
  have hdbnone : db.find? (fun p => p._id = freshId) = none :=
    List.find?_eq_none.mpr (fun x hx => by simp [hfresh x hx])
  simp only [getUserImage, findById, hid, if_pos, if_neg, List.find?_append,
    hdbnone]
  simp

/-- Witness for C7: a concrete four-byte PNG-typed upload round-trips. -/
theorem ingest_then_serve_roundtrip_witness :
    isValidObjectId "0123456789abcdef01234567" = true ∧
    getUserImage
      (postUsers [] ⟨some "Ann", some "1234567890", some "1 Main St"⟩
        (some ⟨"image/png", [137, 80, 78, 71]⟩)
        "0123456789abcdef01234567" 5).1 "0123456789abcdef01234567" =
      { status := 200, contentType := some "image/png",
        body := .raw [137, 80, 78, 71] } :=
  ⟨by decide,
   (ingest_then_serve_roundtrip [] "Ann" "1234567890" "1 Main St"
      ⟨"image/png", [137, 80, 78, 71]⟩ "0123456789abcdef01234567" 5
      (by decide) (by decide) (by decide) (by decide) (by decide) (by decide)
      (by intro q hq; cases hq)).2⟩

/-- C8: the image route validates the id shape before querying — a
malformed id is a 400 (never a 500), and a well-formed id whose document is
absent, or whose document has no image bytes, is a 404. -/
theorem serve_image_error_handling (db : List Profile) (id : String) :
    (isValidObjectId id = false →
      getUserImage db id = jsonUp 400 false "Invalid user ID format") ∧
    (isValidObjectId id = true → db.find? (fun p => p._id = id) = none →
      getUserImage db id = jsonUp 404 false "Image not found") ∧
    (∀ u, isValidObjectId id = true → db.find? (fun p => p._id = id) = some u →
      u.imageData = none →
      getUserImage db id = jsonUp 404 false "Image not found") := by
  refine ⟨?_, ?_, ?_⟩
  · intro h
    simp [getUserImage, h]
  · intro h hnone
    simp [getUserImage, findById, h, hnone]
  · intro u h hu him
    simp [getUserImage, findById, h, hu, him]

/-- Witness for C8: a malformed id, a dangling well-formed id, and a
document stored without image bytes. -/
theorem serve_image_error_handling_witness :
    getUserImage [] "xyz" = jsonUp 400 false "Invalid user ID format" ∧
    getUserImage [] "aaaaaaaaaaaa" = jsonUp 404 false "Image not found" ∧
    getUserImage [⟨"aaaaaaaaaaaa", "N", "M", "A", none, none, 0⟩]
      "aaaaaaaaaaaa" = jsonUp 404 false "Image not found" :=
  ⟨(serve_image_error_handling [] "xyz").1 (by decide),
   (serve_image_error_handling [] "aaaaaaaaaaaa").2.1 (by decide) (by decide),
   (serve_image_error_handling [⟨"aaaaaaaaaaaa", "N", "M", "A", none, none, 0⟩]
      "aaaaaaaaaaaa").2.2 ⟨"aaaaaaaaaaaa", "N", "M", "A", none, none, 0⟩
     (by decide) (by decide) (by decide)⟩

/-- C9: the bulk listing answers 200 with every stored profile — the listed
sequence is a permutation of the store sorted by descending creation time —
and each listed document is the serialization with the image payload
removed, so no entry carries an `image` field. -/
theorem list_users_spec (db : List Profile) :
    getUsers db =
      { status := 200,
        contentType := none,
        body := .json [("success", .b true),
          ("data", .arr ((List.insertionSort createdDesc db).map
            (fun p => .obj (omitImage (docJson p)))))] } ∧
    (List.insertionSort createdDesc db).Perm db ∧
    List.Sorted createdDesc (List.insertionSort createdDesc db) ∧
    ∀ p : Profile, lookupKey (omitImage (docJson p)) "image" = none :=
  ⟨rfl, List.perm_insertionSort createdDesc db,
   List.sorted_insertionSort createdDesc db,
   fun _ => lookupKey_filter_self _ _⟩

/-- C10: the single-profile metadata route does no id validation, so a
malformed id makes the store lookup throw and the handler answer 500,
while the image route answers 400 for the very same id. -/
theorem byid_malformed_id_500 (db : List Profile) (id : String)
    (h : isValidObjectId id = false) :
    getUserById db id = jsonUp 500 false "Internal server error" ∧
    getUserImage db id = jsonUp 400 false "Invalid user ID format" := by
  constructor
  · simp [getUserById, findById, h]
  · simp [getUserImage, h]

/-- Witness for C10 at the malformed id "xyz". -/
theorem byid_malformed_id_500_witness :
    getUserById [] "xyz" = jsonUp 500 false "Internal server error" ∧
    getUserImage [] "xyz" = jsonUp 400 false "Invalid user ID format" :=
  byid_malformed_id_500 [] "xyz" (by decide)
